import Mathlib

/-!
Verification of the Match Scoring & Persistence job of the yeyzer-ai
repository (match-engine service, `calculateMatches`, together with the
shared geolocation helper `calculateDistance`).

The embedding below translates the TypeScript source into Lean:
JavaScript numbers are modelled as rationals (the scoring arithmetic uses
only rational constants), except inside the haversine distance computation,
which uses real-valued trigonometry and is therefore modelled over `ℝ`.
Nullable columns and optional object fields are `Option`s, and JavaScript
truthiness tests on strings and numbers are modelled explicitly: `null`,
the empty string and the number `0` are falsy.  JavaScript `Set`s built
from arrays are modelled as `Finset`s obtained with `List.toFinset`, whose
membership and cardinality agree with the `Set` semantics used by the code
(deduplicated membership).  The `JSON.stringify`/`toFixed` formatting of
the `score_details` audit payload is display-only and is modelled as the
tuple of the four sub-scores it renders.
-/

namespace Yeyzer

/-- Clamping combinator mirroring `Math.min(1, Math.max(0, x))`. -/
def clamp01 (x : ℚ) : ℚ := min 1 (max 0 x)

/-- JavaScript truthiness of a nullable string: `null` and `""` are falsy. -/
def truthyStr (o : Option String) : Bool :=
  match o with
  | none => false
  | some s => !(s == "")

/-- JavaScript truthiness of a nullable number: `null` and `0` are falsy. -/
def truthyNum (o : Option ℚ) : Bool :=
  match o with
  | none => false
  | some x => !(x == 0)

/-- Earth radius in kilometers (shared/utils `EARTH_RADIUS_KM`). -/
def EARTH_RADIUS_KM : ℝ := 6371

/-- Degrees to radians (shared/utils `degreesToRadians`). -/
noncomputable def degreesToRadians (degrees : ℝ) : ℝ := degrees * (Real.pi / 180)

/-- JavaScript `Math.atan2 y x`, i.e. the argument of the complex number
`x + y*i`. -/
noncomputable def atan2 (y x : ℝ) : ℝ := Complex.arg ⟨x, y⟩

/-- The haversine intermediate `a` of shared/utils `calculateDistance`. -/
noncomputable def haversineA (lat1 lon1 lat2 lon2 : ℝ) : ℝ :=
  Real.sin (degreesToRadians (lat2 - lat1) / 2) * Real.sin (degreesToRadians (lat2 - lat1) / 2) +
    Real.cos (degreesToRadians lat1) * Real.cos (degreesToRadians lat2) *
      Real.sin (degreesToRadians (lon2 - lon1) / 2) * Real.sin (degreesToRadians (lon2 - lon1) / 2)

/-- shared/utils `calculateDistance` in its default `'km'` unit: the
great-circle (haversine) distance between two coordinates. -/
noncomputable def calculateDistance (lat1 lon1 lat2 lon2 : ℝ) : ℝ :=
  EARTH_RADIUS_KM *
    (2 * atan2 (Real.sqrt (haversineA lat1 lon1 lat2 lon2))
               (Real.sqrt (1 - haversineA lat1 lon1 lat2 lon2)))

/-- A user profile as materialised by `fetchUserDataForMatching`: every
nullable column stays an explicit `Option`, while `skills`/`interests` are
defaulted to `[]` by the `row.skills || []` mapping. -/
structure Profile where
  headline : Option String
  bio : Option String
  city : Option String
  state : Option String
  country : Option String
  latitude : Option ℚ
  longitude : Option ℚ
  profession : Option String
  company : Option String
  skills : List String
  interests : List String
deriving DecidableEq

/-- An ideal-persona as materialised by `fetchUserDataForMatching`. -/
structure Persona where
  matchType : Option String
  professionalTraits : List String
  personalTraits : List String
  skillsDesired : List String
  industryPreferences : List String
  experienceLevelPreference : Option String
deriving DecidableEq

/-- Supplementary social attributes (LinkedIn industry, GitHub languages). -/
structure Social where
  linkedinIndustry : Option String
  githubLanguages : List String
deriving DecidableEq

/-- One element of the list returned by `fetchUserDataForMatching`.
`profile`/`persona` are `Option`s so that the `!user.profile` and
`!user.persona` truthiness guards of `calculateMatches` can be expressed;
the mapping `mapRow` below always fills them with `some`. -/
structure UserSnapshot where
  userId : String
  profile : Option Profile
  persona : Option Persona
  social : Social
deriving DecidableEq

/-- The row shape produced by the SQL query of `fetchUserDataForMatching`:
a `LEFT JOIN` of users with profiles, personas and social data, so every
non-key column is nullable. -/
structure DbRow where
  user_id : String
  headline : Option String
  bio : Option String
  city : Option String
  state : Option String
  country : Option String
  latitude : Option ℚ
  longitude : Option ℚ
  profession : Option String
  company : Option String
  skills : Option (List String)
  interests : Option (List String)
  match_type : Option String
  professional_traits : Option (List String)
  personal_traits : Option (List String)
  skills_desired : Option (List String)
  industry_preferences : Option (List String)
  experience_level_preference : Option String
  linkedin_industry : Option String
  github_languages : Option (List String)

/-- The `result.rows.map` step of `fetchUserDataForMatching`: note that the
`profile` and `persona` objects are always constructed (hence `some _`),
even when every joined column is `NULL`. -/
def mapRow (row : DbRow) : UserSnapshot :=
  { userId := row.user_id
    profile := some
      { headline := row.headline
        bio := row.bio
        city := row.city
        state := row.state
        country := row.country
        latitude := row.latitude
        longitude := row.longitude
        profession := row.profession
        company := row.company
        skills := row.skills.getD []
        interests := row.interests.getD [] }
    persona := some
      { matchType := row.match_type
        professionalTraits := row.professional_traits.getD []
        personalTraits := row.personal_traits.getD []
        skillsDesired := row.skills_desired.getD []
        industryPreferences := row.industry_preferences.getD []
        experienceLevelPreference := row.experience_level_preference }
    social :=
      { linkedinIndustry := row.linkedin_industry
        githubLanguages := row.github_languages.getD [] } }

/-- Step 1 of the scorer, skills overlap: Sets built from the skill arrays,
`commonSkillsWithCandidate` counts subject skills the candidate also has,
`candidateSkillsMatchingDesired` counts candidate skills the subject
desires, and the sum is normalised by twice the largest of the three set
sizes (guarded against a zero denominator). -/
def scoreSkillsAlignment (up : Profile) (upe : Persona) (cp : Profile) : ℚ :=
  let userSkills := up.skills.toFinset
  let candidateSkills := cp.skills.toFinset
  let desiredSkills := upe.skillsDesired.toFinset
  let commonSkillsWithCandidate := (userSkills.filter (fun skill => skill ∈ candidateSkills)).card
  let candidateSkillsMatchingDesired := (candidateSkills.filter (fun skill => skill ∈ desiredSkills)).card
  let maxPossibleSkills := max userSkills.card (max candidateSkills.card desiredSkills.card)
  if 0 < maxPossibleSkills then
    ((commonSkillsWithCandidate : ℚ) + (candidateSkillsMatchingDesired : ℚ)) / (2 * (maxPossibleSkills : ℚ))
  else 0

/-- Step 2 of the scorer, industry similarity: `1.0` when the candidate has
a truthy LinkedIn industry that is one of the subject's industry
preferences, otherwise the `0.2` base. -/
def scoreIndustryAlignment (upe : Persona) (cso : Social) : ℚ :=
  match cso.linkedinIndustry with
  | some candidateIndustry =>
      if candidateIndustry ≠ "" ∧ candidateIndustry ∈ upe.industryPreferences.toFinset then 1 else 0.2
  | none => 0.2

/-- The first guard of step 3: both cities truthy and equal. -/
def cityMatch (up cp : Profile) : Bool :=
  truthyStr up.city && truthyStr cp.city && (up.city == cp.city)

/-- The state guard of step 3: both states truthy and equal. -/
def stateMatch (up cp : Profile) : Bool :=
  truthyStr up.state && truthyStr cp.state && (up.state == cp.state)

/-- The coordinate guard of step 3: all four coordinates truthy (in
JavaScript a `0` latitude or longitude is falsy). -/
def coordsPresent (up cp : Profile) : Bool :=
  truthyNum up.latitude && truthyNum up.longitude && truthyNum cp.latitude && truthyNum cp.longitude

/-- A nullable coordinate as the real number fed to `calculateDistance`. -/
def coordVal (o : Option ℚ) : ℝ := ((o.getD 0 : ℚ) : ℝ)

/-- The distance-banded bonus of step 3. -/
noncomputable def distanceBonus (distance : ℝ) : ℚ :=
  if distance ≤ 10 then 0.8
  else if distance ≤ 25 then 0.6
  else if distance ≤ 50 then 0.4
  else if distance ≤ 100 then 0.2
  else 0

/-- Step 3 of the scorer, location proximity: same (truthy) city earns 0.5
plus another 0.5 for same state; else same state alone earns 0.3; else,
when all four coordinates are truthy, a distance-banded bonus; the result
is capped at 1 (`Math.min(1, ...)`). -/
noncomputable def scoreProfessionalFit (up cp : Profile) : ℚ :=
  let fit : ℚ :=
    if cityMatch up cp then 0.5 + (if stateMatch up cp then 0.5 else 0)
    else if stateMatch up cp then 0.3
    else if coordsPresent up cp then
      distanceBonus (calculateDistance (coordVal up.latitude) (coordVal up.longitude)
        (coordVal cp.latitude) (coordVal cp.longitude))
    else 0
  min 1 fit

/-- Step 4 of the scorer, complement-vs-mirror personal fit. -/
def scorePersonalFit (up : Profile) (upe : Persona) (cp : Profile) : ℚ :=
  let userSkills := up.skills.toFinset
  let candidateSkills := cp.skills.toFinset
  let commonSkillsWithCandidate := (userSkills.filter (fun skill => skill ∈ candidateSkills)).card
  if upe.matchType == some "COMPLEMENT" then
    let differentSkills : ℚ := 1 - (commonSkillsWithCandidate : ℚ) / ((max userSkills.card 1 : ℕ) : ℚ)
    let differentProfession : ℚ := if up.profession ≠ cp.profession then 1 else 0
    differentSkills * 0.7 + differentProfession * 0.3
  else if upe.matchType == some "MIRROR" then
    let similarSkills : ℚ := (commonSkillsWithCandidate : ℚ) / ((max userSkills.card 1 : ℕ) : ℚ)
    let sameProfession : ℚ := if up.profession = cp.profession then 1 else 0
    similarSkills * 0.7 + sameProfession * 0.3
  else 0.5

/-- Step 5 of the scorer, experience compatibility. -/
def scoreExperienceCompatibility (upe cpe : Persona) : ℚ :=
  if upe.experienceLevelPreference = some "ANY" ∨
      upe.experienceLevelPreference = cpe.experienceLevelPreference then 1 else 0.5

/-- The six scores reported per ordered evaluation. -/
structure MatchScores where
  overall : ℚ
  professionalFit : ℚ
  personalFit : ℚ
  skillsAlignment : ℚ
  industryAlignment : ℚ
  experienceCompatibility : ℚ
deriving DecidableEq

/-- Lines 308-421 of the match engine: the five sub-scores, the weighted
combination, the experience multiplier, and the final clamping of every
score to the unit interval. -/
noncomputable def computeScores (up : Profile) (upe : Persona) (cp : Profile) (cpe : Persona)
    (cso : Social) : MatchScores :=
  let sSkills := scoreSkillsAlignment up upe cp
  let sIndustry := scoreIndustryAlignment upe cso
  let sProfessional := scoreProfessionalFit up cp
  let sPersonal := scorePersonalFit up upe cp
  let sExperience := scoreExperienceCompatibility upe cpe
  let overall :=
    (sSkills * 0.5 + sIndustry * 0.2 + sProfessional * 0.1 + sPersonal * 0.2) *
      (0.8 + sExperience * 0.2)
  { overall := clamp01 overall
    professionalFit := clamp01 sProfessional
    personalFit := clamp01 sPersonal
    skillsAlignment := clamp01 sSkills
    industryAlignment := clamp01 sIndustry
    experienceCompatibility := clamp01 sExperience }

/-- A match candidate as pushed onto `matchesToInsert` (lines 426-441):
the ordered pair, the six clamped scores, and the audit `scoreDetails`
holding the skills, industry, location and persona sub-scores. -/
structure MatchInsert where
  userId : String
  matchedUserId : String
  scoreOverall : ℚ
  scoreProfessionalFit : ℚ
  scorePersonalFit : ℚ
  scoreSkillsAlignment : ℚ
  scoreIndustryAlignment : ℚ
  scoreExperienceCompatibility : ℚ
  scoreDetails : ℚ × ℚ × ℚ × ℚ
deriving DecidableEq

/-- The `usersToProcess` selection of `calculateMatches`: with a target
user id only that user's snapshots, otherwise the whole population. -/
def usersToProcess (allUsersData : List UserSnapshot) (targetUserId : Option String) :
    List UserSnapshot :=
  match targetUserId with
  | some t => allUsersData.filter (fun u => u.userId == t)
  | none => allUsersData

/-- The object literal pushed onto `matchesToInsert` for a kept pair. -/
def mkMatchInsert (uid mid : String) (s : MatchScores) : MatchInsert :=
  { userId := uid
    matchedUserId := mid
    scoreOverall := s.overall
    scoreProfessionalFit := s.professionalFit
    scorePersonalFit := s.personalFit
    scoreSkillsAlignment := s.skillsAlignment
    scoreIndustryAlignment := s.industryAlignment
    scoreExperienceCompatibility := s.experienceCompatibility
    scoreDetails := (s.skillsAlignment, s.industryAlignment, s.professionalFit, s.personalFit) }

/-- The body of the inner candidate loop for one subject (whose profile and
persona have already passed the truthiness guard): skip self-pairs and
candidates with falsy persona/profile, score the pair, and keep it only
when the overall score reaches the threshold. -/
noncomputable def evalCandidate (user : UserSnapshot) (up : Profile) (upe : Persona)
    (threshold : ℚ) (candidate : UserSnapshot) : Option MatchInsert :=
  if user.userId = candidate.userId then none
  else
    match candidate.persona, candidate.profile with
    | some cpe, some cp =>
        let s := computeScores up upe cp cpe candidate.social
        if threshold ≤ s.overall then
          some (mkMatchInsert user.userId candidate.userId s)
        else none
    | _, _ => none

/-- The outer subject loop body: a subject with falsy persona or profile is
skipped (with a warning) and contributes nothing. -/
noncomputable def evalSubject (allUsersData : List UserSnapshot) (threshold : ℚ)
    (user : UserSnapshot) : List MatchInsert :=
  match user.persona, user.profile with
  | some upe, some up => allUsersData.filterMap (evalCandidate user up upe threshold)
  | _, _ => []

/-- The in-memory phase of `calculateMatches` (lines 288-444): the list
`matchesToInsert` accumulated over all processed subjects. -/
noncomputable def computeMatches (allUsersData : List UserSnapshot) (targetUserId : Option String)
    (threshold : ℚ) : List MatchInsert :=
  (usersToProcess allUsersData targetUserId).flatMap (evalSubject allUsersData threshold)

/-- The status lifecycle of the `yeyzer.matches` table. -/
inductive MatchStatus where
  | PENDING
  | ACCEPTED
  | REJECTED
  | SCHEDULED
  | COMPLETED
  | CANCELLED
deriving DecidableEq

/-- The `status IN ('ACCEPTED', 'REJECTED', 'SCHEDULED', 'COMPLETED',
'CANCELLED')` test of the upsert's `CASE` expression. -/
def statusAdvanced (s : MatchStatus) : Bool :=
  [MatchStatus.ACCEPTED, MatchStatus.REJECTED, MatchStatus.SCHEDULED,
    MatchStatus.COMPLETED, MatchStatus.CANCELLED].contains s

/-- A row of the `yeyzer.matches` table.  Timestamps are abstract ticks;
`scheduled_time`, `user_feedback` (1-5) and `matched_user_feedback` are
owned by downstream workflows. -/
structure MatchRow where
  id : String
  userId : String
  matchedUserId : String
  status : MatchStatus
  scoreOverall : ℚ
  scoreProfessionalFit : ℚ
  scorePersonalFit : ℚ
  scoreSkillsAlignment : ℚ
  scoreIndustryAlignment : ℚ
  scoreExperienceCompatibility : ℚ
  scoreDetails : ℚ × ℚ × ℚ × ℚ
  scheduledTime : Option ℕ
  userFeedback : Option ℕ
  matchedUserFeedback : Option ℕ
  createdAt : ℕ
  updatedAt : ℕ
deriving DecidableEq

/-- Whether a row is the one keyed by the ordered pair `(uid, mid)` (the
table has `UNIQUE (user_id, matched_user_id)`). -/
def rowMatches (uid mid : String) (r : MatchRow) : Bool :=
  r.userId == uid && r.matchedUserId == mid

/-- Lookup of the row keyed by an ordered pair. -/
def findRow (db : List MatchRow) (uid mid : String) : Option MatchRow :=
  db.find? (rowMatches uid mid)

/-- The `DO UPDATE SET` clause of the upsert: only the conditional status,
the seven score columns and `updated_at` are assigned; every other column
of the conflicting row is untouched. -/
def updatedRow (r : MatchRow) (m : MatchInsert) (now : ℕ) : MatchRow :=
  { r with
    status := if statusAdvanced r.status then r.status else MatchStatus.PENDING
    scoreOverall := m.scoreOverall
    scoreProfessionalFit := m.scoreProfessionalFit
    scorePersonalFit := m.scorePersonalFit
    scoreSkillsAlignment := m.scoreSkillsAlignment
    scoreIndustryAlignment := m.scoreIndustryAlignment
    scoreExperienceCompatibility := m.scoreExperienceCompatibility
    scoreDetails := m.scoreDetails
    updatedAt := now }

/-- The `VALUES` clause of the upsert: a fresh `PENDING` row with both
timestamps set to `NOW()` and the downstream-owned columns at their `NULL`
defaults. -/
def insertedRow (newId : String) (m : MatchInsert) (now : ℕ) : MatchRow :=
  { id := newId
    userId := m.userId
    matchedUserId := m.matchedUserId
    status := MatchStatus.PENDING
    scoreOverall := m.scoreOverall
    scoreProfessionalFit := m.scoreProfessionalFit
    scorePersonalFit := m.scorePersonalFit
    scoreSkillsAlignment := m.scoreSkillsAlignment
    scoreIndustryAlignment := m.scoreIndustryAlignment
    scoreExperienceCompatibility := m.scoreExperienceCompatibility
    scoreDetails := m.scoreDetails
    scheduledTime := none
    userFeedback := none
    matchedUserFeedback := none
    createdAt := now
    updatedAt := now }

/-- The `INSERT ... ON CONFLICT (user_id, matched_user_id) DO UPDATE` of
lines 449-481: a fresh row is created with status `PENDING`; a conflicting
row is updated as `updatedRow` describes. -/
def upsertMatch (db : List MatchRow) (newId : String) (m : MatchInsert) (now : ℕ) :
    List MatchRow :=
  match findRow db m.userId m.matchedUserId with
  | some _ =>
      db.map (fun r =>
        if rowMatches m.userId m.matchedUserId r then updatedRow r m now else r)
  | none => db ++ [insertedRow newId m now]

/-- The write loop of lines 447-482 (`for match of matchesToInsert { await
pool.query(upsert) }`).  The loop body has no try/catch: `failsOn` says
which individual upserts the store rejects, and a rejected upsert makes the
whole loop stop with the database as mutated so far (`false` = the loop did
not run to completion).  `genId` supplies the `uuidv4()` ids. -/
def storeMatches (failsOn : MatchInsert → Bool) (genId : ℕ → String) (now : ℕ) :
    List MatchRow → ℕ → List MatchInsert → List MatchRow × Bool
  | db, _, [] => (db, true)
  | db, k, m :: rest =>
      if failsOn m then (db, false)
      else storeMatches failsOn genId now (upsertMatch db (genId k) m now) (k + 1) rest

/-- The whole of `calculateMatches`: compute the match list in memory, then
write it through the upsert loop; the returned count is
`matchesToInsert.length` and is only reached when every upsert succeeded. -/
noncomputable def calculateMatches (allUsersData : List UserSnapshot)
    (targetUserId : Option String) (threshold : ℚ) (failsOn : MatchInsert → Bool)
    (genId : ℕ → String) (now : ℕ) (db : List MatchRow) : List MatchRow × Option ℕ :=
  let matchesToInsert := computeMatches allUsersData targetUserId threshold
  let result := storeMatches failsOn genId now db 0 matchesToInsert
  (result.1, if result.2 then some matchesToInsert.length else none)

/-! ## Range and clamping helper lemmas -/

lemma clamp01_eq_self {x : ℚ} (h0 : 0 ≤ x) (h1 : x ≤ 1) : clamp01 x = x := by
  unfold clamp01
  rw [max_eq_right h0, min_eq_right h1]

lemma scoreSkillsAlignment_mem (up : Profile) (upe : Persona) (cp : Profile) :
    0 ≤ scoreSkillsAlignment up upe cp ∧ scoreSkillsAlignment up upe cp ≤ 1 := by
  simp only [scoreSkillsAlignment]
  split
  case isTrue h =>
    have h1 : (up.skills.toFinset.filter (fun skill => skill ∈ cp.skills.toFinset)).card ≤
        max up.skills.toFinset.card (max cp.skills.toFinset.card upe.skillsDesired.toFinset.card) :=
      le_trans (Finset.card_le_card (Finset.filter_subset _ _)) (le_max_left _ _)
    have h2 : (cp.skills.toFinset.filter (fun skill => skill ∈ upe.skillsDesired.toFinset)).card ≤
        max up.skills.toFinset.card (max cp.skills.toFinset.card upe.skillsDesired.toFinset.card) :=
      le_trans (Finset.card_le_card (Finset.filter_subset _ _))
        (le_trans (le_max_left _ _) (le_max_right _ _))
    have hq : (0 : ℚ) <
        ((max up.skills.toFinset.card (max cp.skills.toFinset.card upe.skillsDesired.toFinset.card) : ℕ) : ℚ) := by
      exact_mod_cast h
    constructor
    · apply div_nonneg (by positivity) (by linarith)
    · rw [div_le_one (by linarith)]
      have hsum : ((up.skills.toFinset.filter (fun skill => skill ∈ cp.skills.toFinset)).card : ℚ) +
          ((cp.skills.toFinset.filter (fun skill => skill ∈ upe.skillsDesired.toFinset)).card : ℚ) ≤
          2 * ((max up.skills.toFinset.card (max cp.skills.toFinset.card upe.skillsDesired.toFinset.card) : ℕ) : ℚ) := by
        have : (up.skills.toFinset.filter (fun skill => skill ∈ cp.skills.toFinset)).card +
            (cp.skills.toFinset.filter (fun skill => skill ∈ upe.skillsDesired.toFinset)).card ≤
            2 * max up.skills.toFinset.card (max cp.skills.toFinset.card upe.skillsDesired.toFinset.card) := by
          omega
        exact_mod_cast this
      linarith
  case isFalse h => norm_num

lemma scoreIndustryAlignment_mem (upe : Persona) (cso : Social) :
    0 ≤ scoreIndustryAlignment upe cso ∧ scoreIndustryAlignment upe cso ≤ 1 := by
  simp only [scoreIndustryAlignment]
  split
  · split <;> norm_num
  · norm_num

lemma distanceBonus_nonneg (d : ℝ) : 0 ≤ distanceBonus d := by
  simp only [distanceBonus]
  split_ifs <;> norm_num

lemma scoreProfessionalFit_mem (up cp : Profile) :
    0 ≤ scoreProfessionalFit up cp ∧ scoreProfessionalFit up cp ≤ 1 := by
  simp only [scoreProfessionalFit]
  constructor
  · apply le_min (by norm_num)
    split_ifs <;> first
      | exact distanceBonus_nonneg _
      | norm_num
  · exact min_le_left _ _

lemma div_max_one_mem (c u : ℕ) (hcu : c ≤ u) :
    0 ≤ (c : ℚ) / ((max u 1 : ℕ) : ℚ) ∧ (c : ℚ) / ((max u 1 : ℕ) : ℚ) ≤ 1 := by
  have hpos : (0 : ℚ) < ((max u 1 : ℕ) : ℚ) := by
    have : 0 < max u 1 := lt_of_lt_of_le Nat.one_pos (le_max_right _ _)
    exact_mod_cast this
  constructor
  · positivity
  · rw [div_le_one hpos]
    have : c ≤ max u 1 := le_trans hcu (le_max_left _ _)
    exact_mod_cast this

lemma scorePersonalFit_mem (up : Profile) (upe : Persona) (cp : Profile) :
    0 ≤ scorePersonalFit up upe cp ∧ scorePersonalFit up upe cp ≤ 1 := by
  simp only [scorePersonalFit]
  have hcu : (up.skills.toFinset.filter (fun skill => skill ∈ cp.skills.toFinset)).card ≤
      up.skills.toFinset.card := Finset.card_le_card (Finset.filter_subset _ _)
  have hd := div_max_one_mem
    (up.skills.toFinset.filter (fun skill => skill ∈ cp.skills.toFinset)).card
    up.skills.toFinset.card hcu
  split
  · split_ifs <;> constructor <;> nlinarith [hd.1, hd.2]
  · split
    · split_ifs <;> constructor <;> nlinarith [hd.1, hd.2]
    · norm_num

lemma scoreExperienceCompatibility_mem (upe cpe : Persona) :
    0 ≤ scoreExperienceCompatibility upe cpe ∧ scoreExperienceCompatibility upe cpe ≤ 1 := by
  simp only [scoreExperienceCompatibility]
  split <;> norm_num

/-! ## Claim theorems -/

/-- C3. The skills-alignment sub-score equals
`(card (U ∩ C) + card (C ∩ D)) / (2 * max (card U) (max (card C) (card D)))`
with value `0` when all three sets are empty, the guarded division never
being taken with a zero denominator; in particular a subject with empty
skills and empty desired skills scores exactly `0` against any candidate. -/
theorem scoreSkillsAlignment_spec (up : Profile) (upe : Persona) (cp : Profile) :
    (scoreSkillsAlignment up upe cp =
      if max up.skills.toFinset.card (max cp.skills.toFinset.card upe.skillsDesired.toFinset.card) = 0
      then 0
      else ((up.skills.toFinset ∩ cp.skills.toFinset).card +
              ((cp.skills.toFinset ∩ upe.skillsDesired.toFinset).card : ℚ)) /
        (2 * ((max up.skills.toFinset.card (max cp.skills.toFinset.card upe.skillsDesired.toFinset.card) : ℕ) : ℚ))) ∧
    (up.skills = [] → upe.skillsDesired = [] → scoreSkillsAlignment up upe cp = 0) := by
  have hbody : scoreSkillsAlignment up upe cp =
      if max up.skills.toFinset.card (max cp.skills.toFinset.card upe.skillsDesired.toFinset.card) = 0
      then 0
      else ((up.skills.toFinset ∩ cp.skills.toFinset).card +
              ((cp.skills.toFinset ∩ upe.skillsDesired.toFinset).card : ℚ)) /
        (2 * ((max up.skills.toFinset.card (max cp.skills.toFinset.card upe.skillsDesired.toFinset.card) : ℕ) : ℚ)) := by
    simp only [scoreSkillsAlignment, Finset.filter_mem_eq_inter]
    rcases Nat.eq_zero_or_pos
      (max up.skills.toFinset.card (max cp.skills.toFinset.card upe.skillsDesired.toFinset.card)) with h | h
    · rw [if_neg (by omega), if_pos h]
    · rw [if_pos h, if_neg (by omega)]
  refine ⟨hbody, fun hU hD => ?_⟩
  rw [hbody]
  rcases Nat.eq_zero_or_pos cp.skills.toFinset.card with hC | hC
  · rw [if_pos (by simp [hU, hD, hC])]
  · have hmax : ¬ max up.skills.toFinset.card
        (max cp.skills.toFinset.card upe.skillsDesired.toFinset.card) = 0 := by
      simp only [hU, hD, List.toFinset_nil, Finset.card_empty]
      omega
    rw [if_neg hmax]
    have h1 : (up.skills.toFinset ∩ cp.skills.toFinset).card = 0 := by
      simp [hU]
    have h2 : (cp.skills.toFinset ∩ upe.skillsDesired.toFinset).card = 0 := by
      simp [hD]
    rw [h1, h2]
    norm_num

/-- C2. The reported overall score is the clamped weighted combination of
the reported sub-scores with the experience multiplier, the experience
compatibility is `1` exactly on preference `ANY` or equal preferences and
`0.5` otherwise, and all five reported sub-scores lie in the unit
interval. -/
theorem computeScores_overall_formula (up : Profile) (upe : Persona) (cp : Profile)
    (cpe : Persona) (cso : Social) :
    ((computeScores up upe cp cpe cso).overall =
      clamp01 (((computeScores up upe cp cpe cso).skillsAlignment * 0.5 +
          (computeScores up upe cp cpe cso).industryAlignment * 0.2 +
          (computeScores up upe cp cpe cso).professionalFit * 0.1 +
          (computeScores up upe cp cpe cso).personalFit * 0.2) *
        (0.8 + (computeScores up upe cp cpe cso).experienceCompatibility * 0.2))) ∧
    ((computeScores up upe cp cpe cso).experienceCompatibility =
      if upe.experienceLevelPreference = some "ANY" ∨
          upe.experienceLevelPreference = cpe.experienceLevelPreference then 1 else 0.5) ∧
    (0 ≤ (computeScores up upe cp cpe cso).skillsAlignment ∧
      (computeScores up upe cp cpe cso).skillsAlignment ≤ 1) ∧
    (0 ≤ (computeScores up upe cp cpe cso).industryAlignment ∧
      (computeScores up upe cp cpe cso).industryAlignment ≤ 1) ∧
    (0 ≤ (computeScores up upe cp cpe cso).professionalFit ∧
      (computeScores up upe cp cpe cso).professionalFit ≤ 1) ∧
    (0 ≤ (computeScores up upe cp cpe cso).personalFit ∧
      (computeScores up upe cp cpe cso).personalFit ≤ 1) ∧
    (0 ≤ (computeScores up upe cp cpe cso).experienceCompatibility ∧
      (computeScores up upe cp cpe cso).experienceCompatibility ≤ 1) := by
  have hsk := scoreSkillsAlignment_mem up upe cp
  have hin := scoreIndustryAlignment_mem upe cso
  have hpr := scoreProfessionalFit_mem up cp
  have hpe := scorePersonalFit_mem up upe cp
  have hex := scoreExperienceCompatibility_mem upe cpe
  simp only [computeScores, clamp01_eq_self hsk.1 hsk.2, clamp01_eq_self hin.1 hin.2,
    clamp01_eq_self hpr.1 hpr.2, clamp01_eq_self hpe.1 hpe.2, clamp01_eq_self hex.1 hex.2]
  refine ⟨trivial, ?_, hsk, hin, hpr, hpe, hex⟩
  simp only [scoreExperienceCompatibility]

/-! ## Symmetry of the location-proximity sub-score -/

lemma optTruthyEq_symm (a b : Option String) :
    (truthyStr a && truthyStr b && (a == b)) = (truthyStr b && truthyStr a && (b == a)) := by
  rw [Bool.eq_iff_iff]
  simp only [Bool.and_eq_true, beq_iff_eq]
  constructor
  · rintro ⟨⟨h1, h2⟩, h3⟩
    exact ⟨⟨h2, h1⟩, h3.symm⟩
  · rintro ⟨⟨h1, h2⟩, h3⟩
    exact ⟨⟨h2, h1⟩, h3.symm⟩

lemma cityMatch_symm (up cp : Profile) : cityMatch cp up = cityMatch up cp := by
  unfold cityMatch
  exact optTruthyEq_symm cp.city up.city

lemma stateMatch_symm (up cp : Profile) : stateMatch cp up = stateMatch up cp := by
  unfold stateMatch
  exact optTruthyEq_symm cp.state up.state

lemma coordsPresent_symm (up cp : Profile) : coordsPresent cp up = coordsPresent up cp := by
  unfold coordsPresent
  rw [Bool.eq_iff_iff]
  simp only [Bool.and_eq_true]
  constructor
  · rintro ⟨⟨⟨h1, h2⟩, h3⟩, h4⟩
    exact ⟨⟨⟨h3, h4⟩, h1⟩, h2⟩
  · rintro ⟨⟨⟨h1, h2⟩, h3⟩, h4⟩
    exact ⟨⟨⟨h3, h4⟩, h1⟩, h2⟩

lemma haversineA_symm (lat1 lon1 lat2 lon2 : ℝ) :
    haversineA lat2 lon2 lat1 lon1 = haversineA lat1 lon1 lat2 lon2 := by
  unfold haversineA degreesToRadians
  have h1 : (lat1 - lat2) * (Real.pi / 180) / 2 = -((lat2 - lat1) * (Real.pi / 180) / 2) := by
    ring
  have h2 : (lon1 - lon2) * (Real.pi / 180) / 2 = -((lon2 - lon1) * (Real.pi / 180) / 2) := by
    ring
  rw [h1, h2, Real.sin_neg, Real.sin_neg]
  ring

lemma calculateDistance_symm (lat1 lon1 lat2 lon2 : ℝ) :
    calculateDistance lat2 lon2 lat1 lon1 = calculateDistance lat1 lon1 lat2 lon2 := by
  unfold calculateDistance
  rw [haversineA_symm]

/-- C10. The location-proximity sub-score is symmetric: evaluating a pair
of profiles in either subject/candidate order yields the same
professionalFit, because the city/state equality guards and the haversine
distance are all invariant under swapping the two sides. -/
theorem professionalFit_symm (up cp : Profile) :
    scoreProfessionalFit up cp = scoreProfessionalFit cp up := by
  simp only [scoreProfessionalFit]
  rw [cityMatch_symm, stateMatch_symm, coordsPresent_symm, calculateDistance_symm]

/-- C4 (amended). The branch structure of professionalFit, with each
branch's clamped value computed: a truthy-and-equal city pair yields 1
with a truthy-and-equal state and 0.5 without; otherwise a truthy-and-equal
state yields 0.3; otherwise, when all four coordinates are truthy
(JavaScript truthiness: a zero coordinate counts as absent), the haversine
distance picks 0.8 / 0.6 / 0.4 / 0.2 / 0 over the 10 / 25 / 50 / 100 km
bands; otherwise the score is 0. -/
theorem professionalFit_branches (up cp : Profile) :
    scoreProfessionalFit up cp =
      if cityMatch up cp then (if stateMatch up cp then 1 else 0.5)
      else if stateMatch up cp then 0.3
      else if coordsPresent up cp then
        (if calculateDistance (coordVal up.latitude) (coordVal up.longitude)
              (coordVal cp.latitude) (coordVal cp.longitude) ≤ 10 then 0.8
         else if calculateDistance (coordVal up.latitude) (coordVal up.longitude)
              (coordVal cp.latitude) (coordVal cp.longitude) ≤ 25 then 0.6
         else if calculateDistance (coordVal up.latitude) (coordVal up.longitude)
              (coordVal cp.latitude) (coordVal cp.longitude) ≤ 50 then 0.4
         else if calculateDistance (coordVal up.latitude) (coordVal up.longitude)
              (coordVal cp.latitude) (coordVal cp.longitude) ≤ 100 then 0.2
         else 0)
      else 0 := by
  simp only [scoreProfessionalFit, distanceBonus]
  split_ifs <;> norm_num [min_def]

/-- A profile sitting on the equator (latitude exactly 0): its coordinates
are present in the database sense but falsy in the JavaScript sense. -/
def upZeroLat : Profile :=
  { headline := none, bio := none, city := none, state := none, country := none
    latitude := some 0, longitude := some 10, profession := none, company := none
    skills := [], interests := [] }

/-- A second equatorial profile at the same coordinates. -/
def cpZeroLat : Profile :=
  { headline := none, bio := none, city := none, state := none, country := none
    latitude := some 0, longitude := some 10, profession := none, company := none
    skills := [], interests := [] }

/-- C4 (counterexample). Two profiles with no city and no state, both with
coordinates present (latitude 0, longitude 10) and at haversine distance 0
(well within the 10 km band), where the claim demands a 0.8 bonus: the
code's truthiness test on the zero latitude skips distance banding and
yields professionalFit 0. -/
theorem professionalFit_zero_coordinate_cex :
    (upZeroLat.latitude.isSome ∧ upZeroLat.longitude.isSome ∧
      cpZeroLat.latitude.isSome ∧ cpZeroLat.longitude.isSome) ∧
    cityMatch upZeroLat cpZeroLat = false ∧
    stateMatch upZeroLat cpZeroLat = false ∧
    calculateDistance (coordVal upZeroLat.latitude) (coordVal upZeroLat.longitude)
      (coordVal cpZeroLat.latitude) (coordVal cpZeroLat.longitude) ≤ 10 ∧
    scoreProfessionalFit upZeroLat cpZeroLat = 0 ∧
    ¬ scoreProfessionalFit upZeroLat cpZeroLat = 0.8 := by
  have h0 : haversineA 0 10 0 10 = 0 := by
    unfold haversineA degreesToRadians
    norm_num
  have hone : (⟨1, 0⟩ : ℂ) = 1 := by
    apply Complex.ext <;> simp
  have hdist : calculateDistance 0 10 0 10 = 0 := by
    unfold calculateDistance atan2
    rw [h0]
    norm_num
    rw [hone, Complex.arg_one]
    norm_num
  have hcv1 : coordVal upZeroLat.latitude = 0 := by
    simp [coordVal, upZeroLat]
  have hcv2 : coordVal upZeroLat.longitude = 10 := by
    simp [coordVal, upZeroLat]
  have hcv3 : coordVal cpZeroLat.latitude = 0 := by
    simp [coordVal, cpZeroLat]
  have hcv4 : coordVal cpZeroLat.longitude = 10 := by
    simp [coordVal, cpZeroLat]
  have hfit : scoreProfessionalFit upZeroLat cpZeroLat = 0 := by
    have hc : cityMatch upZeroLat cpZeroLat = false := by decide
    have hs : stateMatch upZeroLat cpZeroLat = false := by decide
    have hco : coordsPresent upZeroLat cpZeroLat = false := by decide
    simp only [scoreProfessionalFit, hc, hs, hco, Bool.false_eq_true, if_false]
    norm_num
  refine ⟨⟨by decide, by decide, by decide, by decide⟩, by decide, by decide, ?_, hfit, ?_⟩
  · rw [hcv1, hcv2, hcv3, hcv4, hdist]
    norm_num
  · rw [hfit]
    norm_num

/-! ## The disjoint-skills COMPLEMENT scenario (spec example 2) -/

/-- Subject profile of the scenario fixture: one skill, Austin/TX,
designer, no coordinates. -/
def up9 : Profile :=
  { headline := none, bio := none, city := some "Austin", state := some "TX", country := none
    latitude := none, longitude := none, profession := some "Designer", company := none
    skills := ["painting"], interests := [] }

/-- Candidate profile of the scenario fixture: a disjoint skill,
Boston/MA, engineer, no coordinates. -/
def cp9 : Profile :=
  { headline := none, bio := none, city := some "Boston", state := some "MA", country := none
    latitude := none, longitude := none, profession := some "Engineer", company := none
    skills := ["welding"], interests := [] }

/-- Subject persona of the scenario fixture: COMPLEMENT match type and a
SENIOR experience preference. -/
def pe9 : Persona :=
  { matchType := some "COMPLEMENT", professionalTraits := [], personalTraits := []
    skillsDesired := [], industryPreferences := []
    experienceLevelPreference := some "SENIOR" }

/-- Candidate persona of the scenario fixture: mismatched ENTRY_LEVEL
experience preference. -/
def cpe9 : Persona :=
  { matchType := none, professionalTraits := [], personalTraits := []
    skillsDesired := [], industryPreferences := []
    experienceLevelPreference := some "ENTRY_LEVEL" }

/-- Candidate social data of the scenario fixture: no declared industry. -/
def cs9 : Social := { linkedinIndustry := none, githubLanguages := [] }

lemma scoreProfessionalFit_of_no_location {up cp : Profile}
    (hcity : up.city ≠ cp.city) (hstate : up.state ≠ cp.state)
    (hlat : up.latitude = none) : scoreProfessionalFit up cp = 0 := by
  have hc : cityMatch up cp = false := by
    simp [cityMatch, beq_eq_false_iff_ne.mpr hcity]
  have hs : stateMatch up cp = false := by
    simp [stateMatch, beq_eq_false_iff_ne.mpr hstate]
  have hco : coordsPresent up cp = false := by
    simp [coordsPresent, truthyNum, hlat]
  simp only [scoreProfessionalFit, hc, hs, hco, Bool.false_eq_true, if_false]
  norm_num

lemma scoreExperienceCompatibility_of_mismatch {upe cpe : Persona}
    (hexp1 : upe.experienceLevelPreference ≠ some "ANY")
    (hexp2 : upe.experienceLevelPreference ≠ cpe.experienceLevelPreference) :
    scoreExperienceCompatibility upe cpe = 0.5 := by
  simp only [scoreExperienceCompatibility]
  exact if_neg (fun h => h.elim hexp1 hexp2)

/-- C9 (amended). For a pair with disjoint skills, different city and
state, no coordinates, COMPLEMENT match type and mismatched experience
preference: professionalFit is 0 and experienceCompatibility is 0.5, so
the experience multiplier applied to the weighted sum is
0.8 + 0.5 * 0.2 = 0.9 (not 0.8), and the overall score is exactly
clamp01((skills*0.5 + industry*0.2 + personal*0.2) * 0.9). -/
theorem complement_scenario_overall (up : Profile) (upe : Persona) (cp : Profile)
    (cpe : Persona) (cso : Social)
    (hskills : up.skills.toFinset ∩ cp.skills.toFinset = ∅)
    (hcity : up.city ≠ cp.city) (hstate : up.state ≠ cp.state)
    (hlat1 : up.latitude = none) (hlon1 : up.longitude = none)
    (hlat2 : cp.latitude = none) (hlon2 : cp.longitude = none)
    (hmt : upe.matchType = some "COMPLEMENT")
    (hexp1 : upe.experienceLevelPreference ≠ some "ANY")
    (hexp2 : upe.experienceLevelPreference ≠ cpe.experienceLevelPreference) :
    (computeScores up upe cp cpe cso).professionalFit = 0 ∧
    (computeScores up upe cp cpe cso).experienceCompatibility = 0.5 ∧
    0.8 + (computeScores up upe cp cpe cso).experienceCompatibility * 0.2 = 0.9 ∧
    (computeScores up upe cp cpe cso).overall =
      clamp01 ((scoreSkillsAlignment up upe cp * 0.5 + scoreIndustryAlignment upe cso * 0.2 +
        scorePersonalFit up upe cp * 0.2) * 0.9) := by
  have hpf := scoreProfessionalFit_of_no_location hcity hstate hlat1
  have hec := scoreExperienceCompatibility_of_mismatch hexp1 hexp2
  simp only [computeScores, hpf, hec]
  have hc0 : clamp01 0 = 0 := by norm_num [clamp01]
  have hch : clamp01 0.5 = 0.5 := by norm_num [clamp01]
  refine ⟨hc0, hch, by rw [hch]; norm_num, ?_⟩
  congr 1
  ring

/-- Witness for the amended scenario theorem: every hypothesis is
discharged at the explicit fixture pair u9. -/
theorem complement_scenario_overall_witness :
    (computeScores up9 pe9 cp9 cpe9 cs9).professionalFit = 0 ∧
    (computeScores up9 pe9 cp9 cpe9 cs9).experienceCompatibility = 0.5 ∧
    0.8 + (computeScores up9 pe9 cp9 cpe9 cs9).experienceCompatibility * 0.2 = 0.9 ∧
    (computeScores up9 pe9 cp9 cpe9 cs9).overall =
      clamp01 ((scoreSkillsAlignment up9 pe9 cp9 * 0.5 + scoreIndustryAlignment pe9 cs9 * 0.2 +
        scorePersonalFit up9 pe9 cp9 * 0.2) * 0.9) :=
  complement_scenario_overall up9 pe9 cp9 cpe9 cs9 (by decide) (by decide) (by decide)
    (by decide) (by decide) (by decide) (by decide) (by decide) (by decide) (by decide)

/-- C9 (counterexample). On an explicit fixture satisfying every premise of
the scenario (disjoint skills, different city/state, no coordinates,
COMPLEMENT, mismatched experience preference) the overall score is
27/125 = 0.216 = 0.24 * 0.9, and it differs from the value
clamp01(weighted * 0.8) = 24/125 that the claimed 0.8 multiplier would
give. -/
theorem experience_multiplier_cex :
    up9.skills.toFinset ∩ cp9.skills.toFinset = ∅ ∧
    up9.city ≠ cp9.city ∧ up9.state ≠ cp9.state ∧
    up9.latitude = none ∧ up9.longitude = none ∧
    cp9.latitude = none ∧ cp9.longitude = none ∧
    pe9.matchType = some "COMPLEMENT" ∧
    pe9.experienceLevelPreference ≠ some "ANY" ∧
    pe9.experienceLevelPreference ≠ cpe9.experienceLevelPreference ∧
    (computeScores up9 pe9 cp9 cpe9 cs9).overall = 27 / 125 ∧
    ¬ (computeScores up9 pe9 cp9 cpe9 cs9).overall =
      clamp01 (((computeScores up9 pe9 cp9 cpe9 cs9).skillsAlignment * 0.5 +
          (computeScores up9 pe9 cp9 cpe9 cs9).industryAlignment * 0.2 +
          (computeScores up9 pe9 cp9 cpe9 cs9).professionalFit * 0.1 +
          (computeScores up9 pe9 cp9 cpe9 cs9).personalFit * 0.2) * 0.8) := by
  have hsk : scoreSkillsAlignment up9 pe9 cp9 = 0 := by
    have h1 : (up9.skills.toFinset.filter (fun skill => skill ∈ cp9.skills.toFinset)).card = 0 := by
      decide
    have h2 : (cp9.skills.toFinset.filter (fun skill => skill ∈ pe9.skillsDesired.toFinset)).card = 0 := by
      decide
    simp +decide only [scoreSkillsAlignment, h1, h2]
    norm_num
  have hin : scoreIndustryAlignment pe9 cs9 = 0.2 := by
    simp only [scoreIndustryAlignment, cs9]
  have hpf : scoreProfessionalFit up9 cp9 = 0 :=
    scoreProfessionalFit_of_no_location (by decide) (by decide) (by decide)
  have hpe : scorePersonalFit up9 pe9 cp9 = 1 := by
    have h1 : (up9.skills.toFinset.filter (fun skill => skill ∈ cp9.skills.toFinset)).card = 0 := by
      decide
    have h2 : up9.skills.toFinset.card = 1 := by decide
    simp +decide only [scorePersonalFit, h1, h2]
    norm_num
  have hec : scoreExperienceCompatibility pe9 cpe9 = 0.5 :=
    scoreExperienceCompatibility_of_mismatch (by decide) (by decide)
  have hfields : (computeScores up9 pe9 cp9 cpe9 cs9).overall = 27 / 125 ∧
      (computeScores up9 pe9 cp9 cpe9 cs9).skillsAlignment = 0 ∧
      (computeScores up9 pe9 cp9 cpe9 cs9).industryAlignment = 0.2 ∧
      (computeScores up9 pe9 cp9 cpe9 cs9).professionalFit = 0 ∧
      (computeScores up9 pe9 cp9 cpe9 cs9).personalFit = 1 := by
    simp only [computeScores, hsk, hin, hpf, hpe, hec]
    norm_num [clamp01]
  refine ⟨by decide, by decide, by decide, by decide, by decide, by decide, by decide,
    by decide, by decide, by decide, hfields.1, ?_⟩
  rw [hfields.1, hfields.2.1, hfields.2.2.1, hfields.2.2.2.1, hfields.2.2.2.2]
  norm_num [clamp01]

/-! ## Upsert lemmas: status preservation and frame conditions -/

lemma rowMatches_updatedRow (uid mid : String) (r : MatchRow) (m : MatchInsert) (now : ℕ) :
    rowMatches uid mid (updatedRow r m now) = rowMatches uid mid r := by
  simp [rowMatches, updatedRow]

lemma findRow_upsert_of_found (db : List MatchRow) (newId : String) (m : MatchInsert)
    (now : ℕ) (r : MatchRow) (h : findRow db m.userId m.matchedUserId = some r) :
    findRow (upsertMatch db newId m now) m.userId m.matchedUserId =
      some (updatedRow r m now) := by
  have hr : rowMatches m.userId m.matchedUserId r = true := List.find?_some h
  have hcomp : (rowMatches m.userId m.matchedUserId ∘ fun x =>
      if rowMatches m.userId m.matchedUserId x then updatedRow x m now else x) =
      rowMatches m.userId m.matchedUserId := by
    funext x
    by_cases hx : rowMatches m.userId m.matchedUserId x = true <;>
      simp [hx, rowMatches_updatedRow]
  rw [upsertMatch, h]
  show List.find? (rowMatches m.userId m.matchedUserId) (db.map _) = _
  rw [List.find?_map, hcomp]
  show Option.map _ (findRow db m.userId m.matchedUserId) = _
  rw [h]
  simp [hr]

lemma findRow_upsert_of_none (db : List MatchRow) (newId : String) (m : MatchInsert)
    (now : ℕ) (h : findRow db m.userId m.matchedUserId = none) :
    findRow (upsertMatch db newId m now) m.userId m.matchedUserId =
      some (insertedRow newId m now) := by
  rw [upsertMatch, h]
  show List.find? (rowMatches m.userId m.matchedUserId) (db ++ [insertedRow newId m now]) = _
  rw [List.find?_append]
  show ((findRow db m.userId m.matchedUserId).or _) = _
  rw [h]
  simp [rowMatches, insertedRow]

lemma rowMatches_eq {uid mid : String} {r : MatchRow} (h : rowMatches uid mid r = true) :
    r.userId = uid ∧ r.matchedUserId = mid := by
  simp only [rowMatches, Bool.and_eq_true, beq_iff_eq] at h
  exact h

lemma findRow_upsert_other (db : List MatchRow) (newId : String) (m : MatchInsert)
    (now : ℕ) {uid mid : String} (hne : ¬(m.userId = uid ∧ m.matchedUserId = mid)) :
    findRow (upsertMatch db newId m now) uid mid = findRow db uid mid := by
  rw [upsertMatch]
  rcases hf : findRow db m.userId m.matchedUserId with _ | r
  · show List.find? (rowMatches uid mid) (db ++ [insertedRow newId m now]) = _
    rw [List.find?_append]
    have hins : List.find? (rowMatches uid mid) [insertedRow newId m now] = none := by
      rcases hx : rowMatches uid mid (insertedRow newId m now) with _ | _
      · simp [List.find?, hx]
      · exact absurd (rowMatches_eq hx) hne
    rw [hins]
    exact Option.or_none
  · have hcomp : (rowMatches uid mid ∘ fun x =>
        if rowMatches m.userId m.matchedUserId x then updatedRow x m now else x) =
        rowMatches uid mid := by
      funext x
      by_cases hx : rowMatches m.userId m.matchedUserId x = true <;>
        simp [hx, rowMatches_updatedRow]
    show List.find? (rowMatches uid mid) (db.map _) = _
    rw [List.find?_map, hcomp]
    show Option.map _ (findRow db uid mid) = _
    rcases hg : findRow db uid mid with _ | r'
    · rfl
    · have hr' := rowMatches_eq (List.find?_some hg)
      have hnm : rowMatches m.userId m.matchedUserId r' = false := by
        rcases hx : rowMatches m.userId m.matchedUserId r' with _ | _
        · rfl
        · rcases rowMatches_eq hx with ⟨h1, h2⟩
          exact absurd ⟨h1.symm.trans hr'.1, h2.symm.trans hr'.2⟩ hne
      simp [hnm]

lemma storeMatches_status_preserved (uid mid : String) :
    ∀ (ms : List MatchInsert) (failsOn : MatchInsert → Bool) (genId : ℕ → String)
      (now : ℕ) (db : List MatchRow) (k : ℕ) (r : MatchRow),
      findRow db uid mid = some r →
      ∃ r', findRow (storeMatches failsOn genId now db k ms).1 uid mid = some r' ∧
        r'.status = r.status := by
  intro ms
  induction ms with
  | nil =>
      intro failsOn genId now db k r hfind
      exact ⟨r, hfind, rfl⟩
  | cons a t ih =>
      intro failsOn genId now db k r hfind
      simp only [storeMatches]
      by_cases hf : failsOn a = true
      · rw [if_pos hf]
        exact ⟨r, hfind, rfl⟩
      · rw [if_neg hf]
        by_cases hpair : a.userId = uid ∧ a.matchedUserId = mid
        · have h1 : findRow db a.userId a.matchedUserId = some r := by
            rw [hpair.1, hpair.2]
            exact hfind
          have h2 := findRow_upsert_of_found db (genId k) a now r h1
          rw [hpair.1, hpair.2] at h2
          rcases ih failsOn genId now _ (k + 1) (updatedRow r a now) h2 with ⟨r', hr', hst⟩
          refine ⟨r', hr', hst.trans ?_⟩
          show (if statusAdvanced r.status then r.status else MatchStatus.PENDING) = r.status
          rcases hs : r.status with _ | _ | _ | _ | _ | _ <;> rfl
        · have h2 := findRow_upsert_other db (genId k) a now hpair
          exact ih failsOn genId now _ (k + 1) r (h2.trans hfind)

/-- C1. Status non-regression of the upsert: re-upserting an existing
ordered pair with any new score leaves an ACCEPTED / REJECTED / SCHEDULED /
COMPLETED / CANCELLED status unchanged, leaves a PENDING status PENDING,
and a pair with no existing row is inserted with status PENDING. -/
theorem upsert_status_non_regression (db : List MatchRow) (newId : String)
    (m : MatchInsert) (now : ℕ) :
    (∀ r, findRow db m.userId m.matchedUserId = some r →
      r.status ∈ [MatchStatus.ACCEPTED, MatchStatus.REJECTED, MatchStatus.SCHEDULED,
        MatchStatus.COMPLETED, MatchStatus.CANCELLED] →
      ∃ r', findRow (upsertMatch db newId m now) m.userId m.matchedUserId = some r' ∧
        r'.status = r.status) ∧
    (∀ r, findRow db m.userId m.matchedUserId = some r → r.status = MatchStatus.PENDING →
      ∃ r', findRow (upsertMatch db newId m now) m.userId m.matchedUserId = some r' ∧
        r'.status = MatchStatus.PENDING) ∧
    (findRow db m.userId m.matchedUserId = none →
      ∃ r', findRow (upsertMatch db newId m now) m.userId m.matchedUserId = some r' ∧
        r'.status = MatchStatus.PENDING) ∧
    (∀ uid mid r, findRow db uid mid = some r →
      ∀ failsOn genId now2 k ms,
      ∃ r', findRow (storeMatches failsOn genId now2 db k ms).1 uid mid = some r' ∧
        r'.status = r.status) := by
  refine ⟨?_, ?_, ?_, ?_⟩
  · intro r hfind hstatus
    refine ⟨updatedRow r m now, findRow_upsert_of_found db newId m now r hfind, ?_⟩
    have hadv : statusAdvanced r.status = true := by
      simp only [List.mem_cons, List.not_mem_nil, or_false] at hstatus
      rcases hstatus with h | h | h | h | h <;> rw [h] <;> decide
    simp [updatedRow, hadv]
  · intro r hfind hstatus
    refine ⟨updatedRow r m now, findRow_upsert_of_found db newId m now r hfind, ?_⟩
    have hadv : statusAdvanced r.status = false := by
      rw [hstatus]
      decide
    simp [updatedRow, hadv]
  · intro hfind
    exact ⟨insertedRow newId m now, findRow_upsert_of_none db newId m now hfind, rfl⟩
  · intro uid mid r hfind failsOn genId now2 k ms
    exact storeMatches_status_preserved uid mid ms failsOn genId now2 db k r hfind

/-- C8. Frame condition of the upsert: on a conflicting row only the score
fields, the conditional status and `updatedAt` are written (the result is
exactly the record update of the old row), `createdAt`, `scheduledTime`,
`userFeedback` and `matchedUserFeedback` being inherited; on insert the row
is created with `createdAt = updatedAt = now`; and rows keyed by any other
pair survive the upsert unchanged. -/
theorem upsert_frame_condition (db : List MatchRow) (newId : String)
    (m : MatchInsert) (now : ℕ) :
    (∀ r, findRow db m.userId m.matchedUserId = some r →
      findRow (upsertMatch db newId m now) m.userId m.matchedUserId = some
        { r with
          status := if statusAdvanced r.status then r.status else MatchStatus.PENDING
          scoreOverall := m.scoreOverall
          scoreProfessionalFit := m.scoreProfessionalFit
          scorePersonalFit := m.scorePersonalFit
          scoreSkillsAlignment := m.scoreSkillsAlignment
          scoreIndustryAlignment := m.scoreIndustryAlignment
          scoreExperienceCompatibility := m.scoreExperienceCompatibility
          scoreDetails := m.scoreDetails
          updatedAt := now }) ∧
    (findRow db m.userId m.matchedUserId = none →
      ∃ r', findRow (upsertMatch db newId m now) m.userId m.matchedUserId = some r' ∧
        r'.id = newId ∧ r'.status = MatchStatus.PENDING ∧ r'.createdAt = now ∧
        r'.updatedAt = now ∧ r'.scheduledTime = none ∧ r'.userFeedback = none ∧
        r'.matchedUserFeedback = none ∧ r'.scoreOverall = m.scoreOverall) ∧
    (∀ r', r' ∈ db → rowMatches m.userId m.matchedUserId r' = false →
      r' ∈ upsertMatch db newId m now) := by
  refine ⟨?_, ?_, ?_⟩
  · intro r hfind
    exact findRow_upsert_of_found db newId m now r hfind
  · intro hfind
    exact ⟨insertedRow newId m now, findRow_upsert_of_none db newId m now hfind,
      rfl, rfl, rfl, rfl, rfl, rfl, rfl, rfl⟩
  · intro r' hmem hkey
    rw [upsertMatch]
    cases hdb : findRow db m.userId m.matchedUserId with
    | some r =>
        refine List.mem_map.mpr ⟨r', hmem, ?_⟩
        rw [if_neg (by rw [hkey]; exact Bool.false_ne_true)]
    | none => exact List.mem_append_left _ hmem

/-! ## The write loop under persistence failures -/

/-- A first match insert fixture (pair u1-u2, all scores 1). -/
def cm1 : MatchInsert :=
  { userId := "u1", matchedUserId := "u2", scoreOverall := 1, scoreProfessionalFit := 1
    scorePersonalFit := 1, scoreSkillsAlignment := 1, scoreIndustryAlignment := 1
    scoreExperienceCompatibility := 1, scoreDetails := (1, 1, 1, 1) }

/-- A second match insert fixture (pair u3-u4, all scores 1). -/
def cm2 : MatchInsert :=
  { userId := "u3", matchedUserId := "u4", scoreOverall := 1, scoreProfessionalFit := 1
    scorePersonalFit := 1, scoreSkillsAlignment := 1, scoreIndustryAlignment := 1
    scoreExperienceCompatibility := 1, scoreDetails := (1, 1, 1, 1) }

/-- A store that rejects exactly the upserts of subject u1. -/
def failsFirst (m : MatchInsert) : Bool := m.userId == "u1"

/-- C7 (counterexample). Two pending writes, the store rejecting the first
pair's upsert and accepting the second: the write loop stops at the first
failure, the database stays empty — the second pair, whose own upsert
would have succeeded, is never written — and no success count is produced;
the claim demands the failure to be caught and the loop to continue with
the remaining pair. -/
theorem storeMatches_failure_aborts_cex :
    failsFirst cm1 = true ∧ failsFirst cm2 = false ∧
    storeMatches failsFirst (fun _ => "id") 0 [] 0 [cm1, cm2] = ([], false) ∧
    findRow (storeMatches failsFirst (fun _ => "id") 0 [] 0 [cm1, cm2]).1
      cm2.userId cm2.matchedUserId = none :=
  ⟨rfl, rfl, rfl, rfl⟩

/-- C7 (amended). The write loop has no per-pair exception handling: when
the store rejects the upsert of a pair `m`, every earlier pair's upsert
persists, `m` and every later pair are not written, and the loop reports
failure instead of a success count. -/
theorem storeMatches_failure_aborts (failsOn : MatchInsert → Bool) (genId : ℕ → String)
    (now : ℕ) (db : List MatchRow) (k : ℕ) (ms1 : List MatchInsert) (m : MatchInsert)
    (ms2 : List MatchInsert)
    (h1 : ∀ x ∈ ms1, failsOn x = false) (h2 : failsOn m = true) :
    storeMatches failsOn genId now db k (ms1 ++ m :: ms2) =
      ((storeMatches (fun _ => false) genId now db k ms1).1, false) := by
  induction ms1 generalizing db k with
  | nil => simp [storeMatches, h2]
  | cons a t ih =>
      have ha : failsOn a = false := h1 a (List.mem_cons_self a t)
      simp only [List.cons_append, storeMatches, ha, Bool.false_eq_true, if_false]
      exact ih _ _ (fun x hx => h1 x (List.mem_cons_of_mem a hx))

/-- Witness for the aborting write loop: the failing pair u1-u2 after the
succeeding pair u3-u4, at a concrete store, id supply and clock. -/
theorem storeMatches_failure_aborts_witness :
    storeMatches failsFirst (fun _ => "id") 0 [] 0 ([cm2] ++ cm1 :: []) =
      ((storeMatches (fun _ => false) (fun _ => "id") 0 [] 0 [cm2]).1, false) :=
  storeMatches_failure_aborts failsFirst (fun _ => "id") 0 [] 0 [cm2] cm1 []
    (by decide) (by decide)

/-! ## The dead missing-data guard -/

/-- The database row of a fully onboarded user u1: users row, profile row,
persona row and LinkedIn data all present. -/
def row1 : DbRow :=
  { user_id := "u1", headline := none, bio := none, city := some "SF", state := some "CA"
    country := none, latitude := none, longitude := none, profession := some "Eng"
    company := none, skills := some ["a", "b", "c"], interests := none
    match_type := some "MIRROR", professional_traits := none, personal_traits := none
    skills_desired := some ["a", "b", "c"], industry_preferences := some ["Tech"]
    experience_level_preference := some "ANY", linkedin_industry := some "Tech"
    github_languages := none }

/-- The database row of a user u2 who has a profile row but NO
ideal_personas row: the LEFT JOIN leaves every persona column NULL. -/
def row2 : DbRow :=
  { user_id := "u2", headline := none, bio := none, city := some "SF", state := some "CA"
    country := none, latitude := none, longitude := none, profession := some "Eng"
    company := none, skills := some ["a", "b", "c"], interests := none
    match_type := none, professional_traits := none, personal_traits := none
    skills_desired := none, industry_preferences := none
    experience_level_preference := none, linkedin_industry := some "Tech"
    github_languages := none }

/-- The profile object `mapRow` materialises for u1. -/
def p1 : Profile :=
  { headline := none, bio := none, city := some "SF", state := some "CA", country := none
    latitude := none, longitude := none, profession := some "Eng", company := none
    skills := ["a", "b", "c"], interests := [] }

/-- The persona object `mapRow` materialises for u1. -/
def e1 : Persona :=
  { matchType := some "MIRROR", professionalTraits := [], personalTraits := []
    skillsDesired := ["a", "b", "c"], industryPreferences := ["Tech"]
    experienceLevelPreference := some "ANY" }

/-- The social object `mapRow` materialises for u1. -/
def s1 : Social := { linkedinIndustry := some "Tech", githubLanguages := [] }

/-- The profile object `mapRow` materialises for u2. -/
def p2 : Profile :=
  { headline := none, bio := none, city := some "SF", state := some "CA", country := none
    latitude := none, longitude := none, profession := some "Eng", company := none
    skills := ["a", "b", "c"], interests := [] }

/-- The persona object `mapRow` materialises for u2 although u2 has no
persona row at all: an all-defaults object, which is truthy in JavaScript,
so the `!candidate.persona` guard can never fire. -/
def e2 : Persona :=
  { matchType := none, professionalTraits := [], personalTraits := []
    skillsDesired := [], industryPreferences := [], experienceLevelPreference := none }

/-- The social object `mapRow` materialises for u2. -/
def s2 : Social := { linkedinIndustry := some "Tech", githubLanguages := [] }

/-- The snapshot of u1 after mapping. -/
def snap1 : UserSnapshot := { userId := "u1", profile := some p1, persona := some e1, social := s1 }

/-- The snapshot of u2 after mapping. -/
def snap2 : UserSnapshot := { userId := "u2", profile := some p2, persona := some e2, social := s2 }

/-- The match record the job produces for the pair (u1, u2). -/
def m6 : MatchInsert :=
  { userId := "u1", matchedUserId := "u2", scoreOverall := 1, scoreProfessionalFit := 1
    scorePersonalFit := 1, scoreSkillsAlignment := 1, scoreIndustryAlignment := 1
    scoreExperienceCompatibility := 1, scoreDetails := (1, 1, 1, 1) }

/-- C6 (code bug). A pair whose candidate lacks persona data is NOT
skipped: `fetchUserDataForMatching` always wraps the joined columns in a
(truthy) persona object, so the `!candidate.persona` guard of
`calculateMatches` can never fire, and at the default 0.5 threshold the
job produces a match record for a candidate who has no ideal_personas row
at all. -/
theorem missing_persona_pair_not_skipped :
    (mapRow row2).persona.isSome = true ∧
    row2.match_type = none ∧ row2.skills_desired = none ∧
    row2.industry_preferences = none ∧ row2.experience_level_preference = none ∧
    (∃ m ∈ computeMatches [mapRow row1, mapRow row2] none (1/2),
      m.userId = "u1" ∧ m.matchedUserId = "u2") := by
  have hmap1 : mapRow row1 = snap1 := rfl
  have hmap2 : mapRow row2 = snap2 := rfl
  have hsk : scoreSkillsAlignment p1 e1 p2 = 1 := by
    have h1 : (p1.skills.toFinset.filter (fun skill => skill ∈ p2.skills.toFinset)).card = 3 := by
      decide
    have h2 : (p2.skills.toFinset.filter (fun skill => skill ∈ e1.skillsDesired.toFinset)).card = 3 := by
      decide
    have h3 : p1.skills.toFinset.card = 3 := by decide
    have h4 : p2.skills.toFinset.card = 3 := by decide
    have h5 : e1.skillsDesired.toFinset.card = 3 := by decide
    simp +decide only [scoreSkillsAlignment, h1, h2, h3, h4, h5]
    norm_num
  have hin : scoreIndustryAlignment e1 s2 = 1 := by
    simp +decide only [scoreIndustryAlignment, s2]
  have hpf : scoreProfessionalFit p1 p2 = 1 := by
    have hc : cityMatch p1 p2 = true := by decide
    have hs : stateMatch p1 p2 = true := by decide
    simp only [scoreProfessionalFit, hc, hs, if_true]
    norm_num
  have hpe : scorePersonalFit p1 e1 p2 = 1 := by
    have h1 : (p1.skills.toFinset.filter (fun skill => skill ∈ p2.skills.toFinset)).card = 3 := by
      decide
    have h2 : p1.skills.toFinset.card = 3 := by decide
    simp +decide only [scorePersonalFit, h1, h2]
    norm_num
  have hec : scoreExperienceCompatibility e1 e2 = 1 := by
    simp +decide only [scoreExperienceCompatibility, e1]
  have hscores : computeScores p1 e1 p2 e2 s2 =
      { overall := 1, professionalFit := 1, personalFit := 1, skillsAlignment := 1
        industryAlignment := 1, experienceCompatibility := 1 } := by
    simp only [computeScores, hsk, hin, hpf, hpe, hec, MatchScores.mk.injEq]
    norm_num [clamp01]
  have heval : evalCandidate snap1 p1 e1 (1/2) (mapRow row2) = some m6 := by
    rw [evalCandidate, if_neg (by decide), hmap2]
    show (match snap2.persona, snap2.profile with
      | some cpe, some cp =>
          let s := computeScores p1 e1 cp cpe snap2.social
          if (1 : ℚ)/2 ≤ s.overall then
            some (mkMatchInsert snap1.userId snap2.userId s)
          else none
      | _, _ => none) = some m6
    simp only [snap2, snap1, hscores]
    norm_num [m6, mkMatchInsert]
  refine ⟨rfl, rfl, rfl, rfl, rfl, m6, ?_, rfl, rfl⟩
  rw [computeMatches]
  show m6 ∈ ([mapRow row1, mapRow row2]).flatMap
    (evalSubject [mapRow row1, mapRow row2] (1/2))
  refine List.mem_flatMap.mpr ⟨mapRow row1, List.mem_cons_self _ _, ?_⟩
  rw [evalSubject, hmap1]
  show m6 ∈ ([mapRow row1, mapRow row2]).filterMap (evalCandidate snap1 p1 e1 (1/2))
  exact List.mem_filterMap.mpr ⟨mapRow row2, by simp, heval⟩

/-! ## Threshold filtering -/

lemma evalCandidate_inv {user : UserSnapshot} {up : Profile} {upe : Persona} {θ : ℚ}
    {candidate : UserSnapshot} {m : MatchInsert}
    (h : evalCandidate user up upe θ candidate = some m) :
    user.userId ≠ candidate.userId ∧
    ∃ cpe cp, candidate.persona = some cpe ∧ candidate.profile = some cp ∧
      θ ≤ (computeScores up upe cp cpe candidate.social).overall ∧
      m = mkMatchInsert user.userId candidate.userId
        (computeScores up upe cp cpe candidate.social) := by
  by_cases hid : user.userId = candidate.userId
  · rw [evalCandidate, if_pos hid] at h
    exact absurd h (by simp)
  · rw [evalCandidate, if_neg hid] at h
    rcases hcp : candidate.persona with _ | cpe <;> rw [hcp] at h
    · exact absurd h (by simp)
    rcases hpr : candidate.profile with _ | cp <;> rw [hpr] at h
    · exact absurd h (by simp)
    by_cases hθ : θ ≤ (computeScores up upe cp cpe candidate.social).overall
    · refine ⟨hid, cpe, cp, rfl, rfl, hθ, ?_⟩
      simp only [if_pos hθ] at h
      exact (Option.some_inj.mp h).symm
    · simp only [if_neg hθ] at h
      exact absurd h (by simp)

lemma evalCandidate_eq_some {user : UserSnapshot} {up : Profile} {upe : Persona} {θ : ℚ}
    {candidate : UserSnapshot} {cpe : Persona} {cp : Profile}
    (hid : user.userId ≠ candidate.userId) (hcp : candidate.persona = some cpe)
    (hpr : candidate.profile = some cp)
    (hθ : θ ≤ (computeScores up upe cp cpe candidate.social).overall) :
    evalCandidate user up upe θ candidate =
      some (mkMatchInsert user.userId candidate.userId
        (computeScores up upe cp cpe candidate.social)) := by
  rw [evalCandidate, if_neg hid, hcp, hpr]
  simp only [if_pos hθ]

lemma mem_evalSubject {users : List UserSnapshot} {θ : ℚ} {user : UserSnapshot}
    {m : MatchInsert} :
    m ∈ evalSubject users θ user ↔
      ∃ upe up, user.persona = some upe ∧ user.profile = some up ∧
        ∃ candidate ∈ users, evalCandidate user up upe θ candidate = some m := by
  rcases hpe : user.persona with _ | upe <;> rcases hpr : user.profile with _ | up <;>
    simp [evalSubject, hpe, hpr, List.mem_filterMap]

lemma usersToProcess_subset (users : List UserSnapshot) (target : Option String) :
    ∀ u ∈ usersToProcess users target, u ∈ users := by
  intro u hu
  cases target with
  | none => exact hu
  | some t => exact (List.mem_filter.mp hu).1

lemma mem_upsertMatch {db : List MatchRow} {newId : String} {m : MatchInsert} {now : ℕ}
    {r' : MatchRow} (h : r' ∈ upsertMatch db newId m now) :
    r' ∈ db ∨ r'.scoreOverall = m.scoreOverall := by
  rw [upsertMatch] at h
  rcases hf : findRow db m.userId m.matchedUserId with _ | r <;> rw [hf] at h
  · rcases List.mem_append.mp h with hl | hr
    · exact Or.inl hl
    · right
      rw [List.mem_singleton.mp hr]
      rfl
  · rcases List.mem_map.mp h with ⟨x, hx, hfx⟩
    by_cases hrm : rowMatches m.userId m.matchedUserId x = true
    · right
      rw [if_pos hrm] at hfx
      rw [← hfx]
      rfl
    · left
      rw [if_neg hrm] at hfx
      rwa [← hfx]

lemma storeMatches_rows_bound (failsOn : MatchInsert → Bool) (genId : ℕ → String)
    (now : ℕ) (θ : ℚ) :
    ∀ (ms : List MatchInsert) (db : List MatchRow) (k : ℕ),
      (∀ r ∈ db, θ ≤ r.scoreOverall) → (∀ x ∈ ms, θ ≤ x.scoreOverall) →
      ∀ r ∈ (storeMatches failsOn genId now db k ms).1, θ ≤ r.scoreOverall := by
  intro ms
  induction ms with
  | nil =>
      intro db k hdb hms r hr
      exact hdb r hr
  | cons a t ih =>
      intro db k hdb hms r hr
      simp only [storeMatches] at hr
      by_cases hf : failsOn a = true
      · rw [if_pos hf] at hr
        exact hdb r hr
      · rw [if_neg hf] at hr
        refine ih _ _ ?_ (fun x hx => hms x (List.mem_cons_of_mem a hx)) r hr
        intro r' hr'
        rcases mem_upsertMatch hr' with h | h
        · exact hdb r' h
        · rw [h]
          exact hms a (List.mem_cons_self a t)

/-- C5. Threshold filtering: every produced match insert has overall score
at least the threshold; for every evaluated subject-candidate pair (the
subject processed and guard-passing, the candidate guard-passing and
distinct), an insert for that ordered pair exists in the produced list
exactly when the pair's overall score reaches the threshold; and the rows
of the database after the write loop all carry overall scores at least the
threshold whenever the rows before it did. -/
theorem computeMatches_threshold_filtering (users : List UserSnapshot)
    (target : Option String) (θ : ℚ)
    (hnodup : (users.map (fun u => u.userId)).Nodup) :
    (∀ m ∈ computeMatches users target θ, θ ≤ m.scoreOverall) ∧
    (∀ user ∈ usersToProcess users target, ∀ upe up, user.persona = some upe →
      user.profile = some up →
      ∀ candidate ∈ users, user.userId ≠ candidate.userId →
      ∀ cpe cp, candidate.persona = some cpe → candidate.profile = some cp →
      ((∃ m ∈ computeMatches users target θ,
          m.userId = user.userId ∧ m.matchedUserId = candidate.userId) ↔
        θ ≤ (computeScores up upe cp cpe candidate.social).overall)) ∧
    (∀ failsOn genId now db k, (∀ r ∈ db, θ ≤ r.scoreOverall) →
      ∀ r ∈ (storeMatches failsOn genId now db k (computeMatches users target θ)).1,
        θ ≤ r.scoreOverall) := by
  have hkeep : ∀ m ∈ computeMatches users target θ, θ ≤ m.scoreOverall := by
    intro m hm
    rcases List.mem_flatMap.mp hm with ⟨user, _, hms⟩
    rcases mem_evalSubject.mp hms with ⟨upe, up, _, _, candidate, _, heval⟩
    rcases evalCandidate_inv heval with ⟨-, cpe, cp, -, -, hθ, hmeq⟩
    rw [hmeq]
    exact hθ
  refine ⟨hkeep, ?_, ?_⟩
  · intro user huser upe up hupe hup candidate hcand hid cpe cp hcpe hcp
    constructor
    · rintro ⟨m, hm, hmu, hmc⟩
      rcases List.mem_flatMap.mp hm with ⟨user', huser', hms⟩
      rcases mem_evalSubject.mp hms with ⟨upe', up', hupe', hup', candidate', hcand', heval⟩
      rcases evalCandidate_inv heval with ⟨-, cpe', cp', hcpe', hcp', hθ, hmeq⟩
      have huu : user' = user := by
        apply List.inj_on_of_nodup_map hnodup
          (usersToProcess_subset users target user' huser')
          (usersToProcess_subset users target user huser)
        rw [show user'.userId = m.userId from by rw [hmeq]; rfl, hmu]
      have hcc : candidate' = candidate := by
        apply List.inj_on_of_nodup_map hnodup hcand' hcand
        rw [show candidate'.userId = m.matchedUserId from by rw [hmeq]; rfl, hmc]
      subst huu
      subst hcc
      have he1 : upe' = upe := by
        rw [hupe] at hupe'
        exact Option.some_inj.mp hupe'.symm
      have he2 : up' = up := by
        rw [hup] at hup'
        exact Option.some_inj.mp hup'.symm
      have he3 : cpe' = cpe := by
        rw [hcpe] at hcpe'
        exact Option.some_inj.mp hcpe'.symm
      have he4 : cp' = cp := by
        rw [hcp] at hcp'
        exact Option.some_inj.mp hcp'.symm
      rw [he1, he2, he3, he4] at hθ
      exact hθ
    · intro hθ
      refine ⟨mkMatchInsert user.userId candidate.userId
        (computeScores up upe cp cpe candidate.social), ?_, rfl, rfl⟩
      refine List.mem_flatMap.mpr ⟨user, huser, ?_⟩
      exact mem_evalSubject.mpr ⟨upe, up, hupe, hup, candidate, hcand,
        evalCandidate_eq_some hid hcpe hcp hθ⟩
  · intro failsOn genId now db k hdb
    exact storeMatches_rows_bound failsOn genId now θ _ db k hdb hkeep

/-- Witness for the threshold-filtering theorem on the concrete two-user
population with the default 0.5 threshold. -/
theorem computeMatches_threshold_filtering_witness :
    (∀ m ∈ computeMatches [snap1, snap2] none (1/2), 1/2 ≤ m.scoreOverall) ∧
    (∀ user ∈ usersToProcess [snap1, snap2] none, ∀ upe up, user.persona = some upe →
      user.profile = some up →
      ∀ candidate ∈ [snap1, snap2], user.userId ≠ candidate.userId →
      ∀ cpe cp, candidate.persona = some cpe → candidate.profile = some cp →
      ((∃ m ∈ computeMatches [snap1, snap2] none (1/2),
          m.userId = user.userId ∧ m.matchedUserId = candidate.userId) ↔
        (1 : ℚ)/2 ≤ (computeScores up upe cp cpe candidate.social).overall)) ∧
    (∀ failsOn genId now db k, (∀ r ∈ db, (1 : ℚ)/2 ≤ r.scoreOverall) →
      ∀ r ∈ (storeMatches failsOn genId now db k (computeMatches [snap1, snap2] none (1/2))).1,
        (1 : ℚ)/2 ≤ r.scoreOverall) :=
  computeMatches_threshold_filtering [snap1, snap2] none (1/2) (by decide)

end Yeyzer
